import Mathlib

/-!
Shallow embedding of the pipeline / shader / texture layer of the
`wgpu_utils` crate (files `src/pipeline.rs`, `src/shader.rs`,
`src/texture.rs`), together with theorems about the embedded code.

Machine integers are modelled as `Nat` (for `u32`/`u64` values) and `Int`
(for `i32` values) with explicit wrapping (`% 2 ^ 32`, two's complement)
exactly where the Rust code performs fixed-width arithmetic.  Opaque
handles of the wrapped `wgpu` library (devices, encoders, shader modules,
buffer slices, bind groups, attachments) are modelled as `Nat` identifiers;
calls into the wrapped library are modelled by recording the arguments the
wrapper passes to them (descriptor records, command logs).  Fallible Rust
functions (`Result`, index panics, `expect`) are modelled with
`Except`/`Option`.
-/

set_option maxRecDepth 16000

namespace WgpuUtils

/-! ### Fixed-width integer helpers -/

/-- Wrap an unbounded integer into the `i32` range, two's complement. -/
def wrapI32 (z : Int) : Int :=
  Int.emod (z + 2 ^ 31) (2 ^ 32) - 2 ^ 31

/-- The Rust cast `u32 as i32` (bit reinterpretation). -/
def i32OfU32 (n : Nat) : Int :=
  wrapI32 (Int.ofNat n)

/-- The Rust cast `i32 as u32` (bit reinterpretation). -/
def u32OfI32 (z : Int) : Nat :=
  (Int.emod z (2 ^ 32)).toNat

/-! ### Push constants (`src/pipeline.rs`, `PipelineLayoutBuilder`) -/

/-- `PushConstantLayout`: declared byte size and shader stages of one push
constant.  Its defining module is not among the given source files; the two
fields are those read by `PipelineLayoutBuilder::create`
(`x.size`, `x.stages`).  `stages` is the `wgpu::ShaderStages` bitflag
value. -/
structure PushConstantLayout where
  size : Nat
  stages : Nat
deriving DecidableEq

/-- `core::ops::Range<u32>` (`end` is a Lean keyword, rendered `stop`). -/
structure URange where
  start : Nat
  stop : Nat
deriving DecidableEq

/-- `wgpu::PushConstantRange`. -/
structure PushConstantRange where
  stages : Nat
  range : URange
deriving DecidableEq

instance : Inhabited PushConstantRange := ⟨⟨0, ⟨0, 0⟩⟩⟩

instance : Inhabited PushConstantLayout := ⟨⟨0, 0⟩⟩

/-- The alignment computation of `PipelineLayoutBuilder::create`
(pipeline.rs line 185):
`let size_aligned = (((x.size as i32 - 4)/4 + 1)*4) as u32;`
Rust `i32` division truncates toward zero (`Int.tdiv`); the subtraction,
addition and multiplication wrap in `i32`. -/
def sizeAligned (size : Nat) : Nat :=
  let a : Int := i32OfU32 (size % 2 ^ 32)
  let b : Int := wrapI32 (a - 4)
  let c : Int := Int.tdiv b 4
  let d : Int := wrapI32 (c + 1)
  let e : Int := wrapI32 (d * 4)
  u32OfI32 e

/-- The range-allocation loop of `PipelineLayoutBuilder::create`
(pipeline.rs lines 181–195): a running `offset : u32` starts at 0, each
layout gets the range `offset .. offset + size_aligned`, and `offset`
advances to the range's end. -/
def createPushConstRanges (offset : Nat) : List PushConstantLayout → List PushConstantRange
  | [] => []
  | x :: xs =>
    let sa := sizeAligned x.size
    let e := (offset + sa) % 2 ^ 32
    { stages := x.stages, range := { start := offset, stop := e } } ::
      createPushConstRanges e xs

/-- `PipelineLayout` (pipeline.rs lines 142–145).  The wrapped
`wgpu::PipelineLayout` handle is created from the same
`push_const_ranges` and the bind group layouts; we record both. -/
structure PipelineLayout where
  bind_group_layouts : List Nat
  push_const_ranges : List PushConstantRange
deriving DecidableEq

/-- `PipelineLayoutBuilder` (pipeline.rs lines 148–152); the `index` field
is initialised to 0 and never read, so it is omitted. -/
structure PipelineLayoutBuilder where
  bind_group_layouts : List Nat
  push_const_layouts : List PushConstantLayout
deriving DecidableEq

def PipelineLayoutBuilder.new : PipelineLayoutBuilder :=
  { bind_group_layouts := [], push_const_layouts := [] }

def PipelineLayoutBuilder.push_bind_group (b : PipelineLayoutBuilder) (layout : Nat) :
    PipelineLayoutBuilder :=
  { b with bind_group_layouts := b.bind_group_layouts ++ [layout] }

def PipelineLayoutBuilder.push_const_layout (b : PipelineLayoutBuilder)
    (l : PushConstantLayout) : PipelineLayoutBuilder :=
  { b with push_const_layouts := b.push_const_layouts ++ [l] }

/-- `PipelineLayoutBuilder::create` (pipeline.rs lines 173–205).  The
`device.create_pipeline_layout` call is external; its descriptor is the
recorded data. -/
def PipelineLayoutBuilder.create (b : PipelineLayoutBuilder) : PipelineLayout :=
  { bind_group_layouts := b.bind_group_layouts,
    push_const_ranges := createPushConstRanges 0 b.push_const_layouts }

/-! ### Pipelines and pipeline builders (`src/pipeline.rs`) -/

/-- `wgpu::VertexState` as populated by `RenderPipelineBuilder::build`
(pipeline.rs lines 613–617); module handles and buffer layouts opaque. -/
structure WVertexState where
  module : Nat
  entry_point : String
  buffers : List Nat
deriving DecidableEq

/-- `wgpu::FragmentState` as populated by `RenderPipelineBuilder::build`
(pipeline.rs lines 604–608). -/
structure WFragmentState where
  module : Nat
  entry_point : String
  targets : List Nat
deriving DecidableEq

/-- `wgpu::PrimitiveState`; enumeration values encoded as `Nat`
(`TriangleList`, `Ccw`, `Fill` are 0). -/
structure PrimitiveState where
  topology : Nat
  strip_index_format : Option Nat
  front_face : Nat
  cull_mode : Option Nat
  polygon_mode : Nat
  unclipped_depth : Bool
  conservative : Bool
deriving DecidableEq

/-- `wgpu::MultisampleState`; `mask` is a `u64`. -/
structure MultisampleState where
  count : Nat
  mask : Nat
  alpha_to_coverage_enabled : Bool
deriving DecidableEq

/-- The `wgpu::RenderPipelineDescriptor` handed to
`device.create_render_pipeline` (pipeline.rs lines 610–623); the created
opaque `wgpu::RenderPipeline` is modelled by its descriptor. -/
structure RenderPipelineDescriptor where
  label : Option String
  vertex : WVertexState
  fragment : Option WFragmentState
  primitive : PrimitiveState
  depth_stencil : Option Nat
  multisample : MultisampleState
  multiview : Option Nat
deriving DecidableEq

/-- `RenderPipeline` (pipeline.rs lines 137–140). -/
structure RenderPipeline where
  pipeline : RenderPipelineDescriptor
  push_const_ranges : List PushConstantRange
deriving DecidableEq

/-- The `wgpu::ComputePipelineDescriptor` handed to
`device.create_compute_pipeline` (pipeline.rs lines 398–403); the layout
reference is the external handle carried by `PipelineLayout`. -/
structure ComputePipelineDescriptor where
  label : Option String
  module : Nat
  entry_point : String
deriving DecidableEq

/-- `ComputePipeline` (pipeline.rs lines 353–356). -/
structure ComputePipeline where
  pipeline : ComputePipelineDescriptor
  push_const_ranges : List PushConstantRange
deriving DecidableEq

/-- `ComputePipelineBuilder` (pipeline.rs lines 362–367). -/
structure ComputePipelineBuilder where
  label : Option String
  layout : Option PipelineLayout
  module : Nat
  entry_point : String
deriving DecidableEq

def ComputePipelineBuilder.new (module : Nat) : ComputePipelineBuilder :=
  { label := none, layout := none, module, entry_point := "main" }

def ComputePipelineBuilder.set_entry_point (b : ComputePipelineBuilder) (e : String) :
    ComputePipelineBuilder :=
  { b with entry_point := e }

def ComputePipelineBuilder.set_label (b : ComputePipelineBuilder) (l : Option String) :
    ComputePipelineBuilder :=
  { b with label := l }

def ComputePipelineBuilder.set_layout (b : ComputePipelineBuilder) (l : PipelineLayout) :
    ComputePipelineBuilder :=
  { b with layout := some l }

/-- `ComputePipelineBuilder::build` (pipeline.rs lines 395–407).
`self.layout.expect("no layout provided")` panics when no layout was set;
the panic is modelled by `none`. -/
def ComputePipelineBuilder.build (b : ComputePipelineBuilder) : Option ComputePipeline :=
  match b.layout with
  | none => none
  | some layout =>
    some { pipeline := { label := b.label, module := b.module, entry_point := b.entry_point },
           push_const_ranges := layout.push_const_ranges }

/-- `VertexState` of this crate (pipeline.rs lines 94–98). -/
structure VertexState where
  vertex_buffer_layouts : List Nat
  entry_point : String
  vertex_shader : Nat
deriving DecidableEq

/-- `FragmentState` of this crate (pipeline.rs lines 30–34). -/
structure FragmentState where
  targets : List Nat
  entry_point : String
  shader : Nat
deriving DecidableEq

/-- `RenderPipelineBuilder` (pipeline.rs lines 531–540). -/
structure RenderPipelineBuilder where
  label : Option String
  layout : Option PipelineLayout
  vertex : VertexState
  fragment : FragmentState
  primitive : PrimitiveState
  depth_stencil : Option Nat
  multisample : MultisampleState
  multiview : Option Nat
deriving DecidableEq

/-- `RenderPipelineBuilder::new` (pipeline.rs lines 544–573). -/
def RenderPipelineBuilder.new (vertex : VertexState) (fragment : FragmentState) :
    RenderPipelineBuilder :=
  { label := none,
    layout := none,
    vertex, fragment,
    primitive := { topology := 0, strip_index_format := none, front_face := 0,
                   cull_mode := none, polygon_mode := 0, unclipped_depth := false,
                   conservative := false },
    depth_stencil := none,
    multisample := { count := 1, mask := 2 ^ 64 - 1, alpha_to_coverage_enabled := false },
    multiview := none }

def RenderPipelineBuilder.set_layout (b : RenderPipelineBuilder) (l : PipelineLayout) :
    RenderPipelineBuilder :=
  { b with layout := some l }

def RenderPipelineBuilder.set_label (b : RenderPipelineBuilder) (l : Option String) :
    RenderPipelineBuilder :=
  { b with label := l }

/-- `RenderPipelineBuilder::build` (pipeline.rs lines 585–629); the
`expect("no layout provided")` panic is modelled by `none`. -/
def RenderPipelineBuilder.build (b : RenderPipelineBuilder) : Option RenderPipeline :=
  match b.layout with
  | none => none
  | some layout =>
    some { pipeline :=
             { label := b.label,
               vertex := { module := b.vertex.vertex_shader,
                           entry_point := b.vertex.entry_point,
                           buffers := b.vertex.vertex_buffer_layouts },
               fragment := some { module := b.fragment.shader,
                                  entry_point := b.fragment.entry_point,
                                  targets := b.fragment.targets },
               primitive := b.primitive,
               depth_stencil := b.depth_stencil,
               multisample := b.multisample,
               multiview := b.multiview },
           push_const_ranges := layout.push_const_ranges }

/-! ### Render passes (`src/pipeline.rs`, `RenderPass*`) -/

/-- Commands the wrapper issues on the wrapped `wgpu::RenderPass`. -/
inductive RenderPassCmd where
  | setBindGroup (index : Nat) (bind_group : Nat) (offsets : List Nat)
  | setPushConstants (stages : Nat) (offset : Nat) (data : List Nat)
  | setVertexBuffer (slot : Nat) (buffer_slice : Nat)
  | setIndexBuffer (buffer_slice : Nat) (format : Nat)
  | draw (vertices : URange) (instances : URange)
  | drawIndexed (indices : URange) (base_vertex : Int) (instances : URange)
  | setPipeline (pipeline : RenderPipelineDescriptor)
deriving DecidableEq

/-- `wgpu::RenderPassDescriptor` as populated by `RenderPassBuilder::begin`
(pipeline.rs lines 458–462); attachments opaque. -/
structure RenderPassDescriptor where
  label : Option String
  color_attachments : List Nat
  depth_stencil_attachment : Option Nat
deriving DecidableEq

/-- `RenderPass` (pipeline.rs lines 413–415): the wrapped
`wgpu::RenderPass` is modelled by its creation descriptor plus the log of
commands issued on it. -/
structure RenderPass where
  descriptor : RenderPassDescriptor
  log : List RenderPassCmd
deriving DecidableEq

/-- `RenderPassPipeline` (pipeline.rs lines 208–212). -/
structure RenderPassPipeline where
  render_pass : RenderPass
  pipeline : RenderPipeline
  vert_buffer_index : Nat
deriving DecidableEq

/-- `RenderPass::set_pipeline` (pipeline.rs lines 419–426). -/
def RenderPass.set_pipeline (p : RenderPass) (pl : RenderPipeline) : RenderPassPipeline :=
  { render_pass := { p with log := p.log ++ [.setPipeline pl.pipeline] },
    pipeline := pl,
    vert_buffer_index := 0 }

/-- `RenderPassPipeline::set_bind_group` (pipeline.rs lines 215–221). -/
def RenderPassPipeline.set_bind_group (s : RenderPassPipeline) (index : Nat)
    (bind_group : Nat) (offsets : List Nat) : RenderPassPipeline :=
  { s with render_pass :=
      { s.render_pass with log := s.render_pass.log ++ [.setBindGroup index bind_group offsets] } }

/-- `RenderPassPipeline::set_push_const` (pipeline.rs lines 223–228): the
constant's bytes are forwarded at the indexed range's `stages` and
`range.start`; the `[index as usize]` indexing panics (`none`) when the
index is out of bounds. -/
def RenderPassPipeline.set_push_const (s : RenderPassPipeline) (index : Nat)
    (constant : List Nat) : Option RenderPassPipeline :=
  if index < s.pipeline.push_const_ranges.length then
    let r := s.pipeline.push_const_ranges.getD index default
    some { s with render_pass :=
        { s.render_pass with
          log := s.render_pass.log ++ [.setPushConstants r.stages r.range.start constant] } }
  else none

/-- `RenderPassPipeline::set_vertex_buffer` (pipeline.rs lines 240–246):
binds slot `index` and sets the counter to `index + 1` (`u32`). -/
def RenderPassPipeline.set_vertex_buffer (s : RenderPassPipeline) (index : Nat)
    (buffer_slice : Nat) : RenderPassPipeline :=
  { s with
    render_pass :=
      { s.render_pass with log := s.render_pass.log ++ [.setVertexBuffer index buffer_slice] },
    vert_buffer_index := (index + 1) % 2 ^ 32 }

/-- `RenderPassPipeline::push_vertex_buffer` (pipeline.rs lines 248–254):
binds the slot equal to the counter, then increments it (`u32`). -/
def RenderPassPipeline.push_vertex_buffer (s : RenderPassPipeline) (buffer_slice : Nat) :
    RenderPassPipeline :=
  { s with
    render_pass :=
      { s.render_pass with
        log := s.render_pass.log ++ [.setVertexBuffer s.vert_buffer_index buffer_slice] },
    vert_buffer_index := (s.vert_buffer_index + 1) % 2 ^ 32 }

/-- `RenderPassPipeline::set_index_buffer` (pipeline.rs lines 256–258). -/
def RenderPassPipeline.set_index_buffer (s : RenderPassPipeline) (buffer_slice : Nat)
    (format : Nat) : RenderPassPipeline :=
  { s with render_pass :=
      { s.render_pass with log := s.render_pass.log ++ [.setIndexBuffer buffer_slice format] } }

/-- `RenderPassPipeline::set_pipeline` (pipeline.rs lines 269–276). -/
def RenderPassPipeline.set_pipeline (s : RenderPassPipeline) (pl : RenderPipeline) :
    RenderPassPipeline :=
  { render_pass := { s.render_pass with log := s.render_pass.log ++ [.setPipeline pl.pipeline] },
    pipeline := pl,
    vert_buffer_index := 0 }

/-- `RenderPassBuilder` (pipeline.rs lines 439–441). -/
structure RenderPassBuilder where
  color_attachments : List Nat
deriving DecidableEq

def RenderPassBuilder.new : RenderPassBuilder :=
  { color_attachments := [] }

/-- `RenderPassBuilder::push_color_attachment` (pipeline.rs lines 450–453). -/
def RenderPassBuilder.push_color_attachment (b : RenderPassBuilder) (a : Nat) :
    RenderPassBuilder :=
  { b with color_attachments := b.color_attachments ++ [a] }

/-- `RenderPassBuilder::begin` (pipeline.rs lines 456–464):
`encoder.begin_render_pass` with the pushed attachments, no depth-stencil
attachment and the given label. -/
def RenderPassBuilder.begin (b : RenderPassBuilder) (label : Option String) : RenderPass :=
  { descriptor := { label,
                    color_attachments := b.color_attachments,
                    depth_stencil_attachment := none },
    log := [] }

/-! ### Compute passes (`src/pipeline.rs`, `ComputePass*`) -/

/-- Commands the wrapper issues on the wrapped `wgpu::ComputePass`;
`set_push_constants` on a compute pass takes no stage argument. -/
inductive ComputePassCmd where
  | setBindGroup (index : Nat) (bind_group : Nat) (offsets : List Nat)
  | setPushConstants (offset : Nat) (data : List Nat)
  | dispatch (x y z : Nat)
  | dispatchIndirect (buffer : Nat) (offset : Nat)
  | setPipeline (pipeline : ComputePipelineDescriptor)
deriving DecidableEq

/-- `ComputePass` (pipeline.rs lines 290–292). -/
structure ComputePass where
  label : Option String
  log : List ComputePassCmd
deriving DecidableEq

/-- `ComputePass::new` (pipeline.rs lines 295–302). -/
def ComputePass.new (label : Option String) : ComputePass :=
  { label, log := [] }

/-- `ComputePassPipeline` (pipeline.rs lines 317–320). -/
structure ComputePassPipeline where
  cpass : ComputePass
  pipeline : ComputePipeline
deriving DecidableEq

/-- `ComputePass::set_pipeline` (pipeline.rs lines 304–311). -/
def ComputePass.set_pipeline (p : ComputePass) (pl : ComputePipeline) : ComputePassPipeline :=
  { cpass := { p with log := p.log ++ [.setPipeline pl.pipeline] },
    pipeline := pl }

/-- `ComputePassPipeline::set_bind_group` (pipeline.rs lines 323–325). -/
def ComputePassPipeline.set_bind_group (s : ComputePassPipeline) (index : Nat)
    (bind_group : Nat) (offsets : List Nat) : ComputePassPipeline :=
  { s with cpass := { s.cpass with log := s.cpass.log ++ [.setBindGroup index bind_group offsets] } }

/-- `ComputePassPipeline::set_push_const` (pipeline.rs lines 327–331): the
constant's bytes are forwarded at the indexed range's `range.start`
(no stages on a compute pass); out-of-bounds indexing panics (`none`). -/
def ComputePassPipeline.set_push_const (s : ComputePassPipeline) (index : Nat)
    (constant : List Nat) : Option ComputePassPipeline :=
  if index < s.pipeline.push_const_ranges.length then
    let r := s.pipeline.push_const_ranges.getD index default
    some { s with cpass :=
        { s.cpass with log := s.cpass.log ++ [.setPushConstants r.range.start constant] } }
  else none

/-- `ComputePassPipeline::dispatch` (pipeline.rs lines 333–335). -/
def ComputePassPipeline.dispatch (s : ComputePassPipeline) (x y z : Nat) : ComputePassPipeline :=
  { s with cpass := { s.cpass with log := s.cpass.log ++ [.dispatch x y z] } }

/-- `ComputePassPipeline::set_pipeline` (pipeline.rs lines 341–347). -/
def ComputePassPipeline.set_pipeline (s : ComputePassPipeline) (pl : ComputePipeline) :
    ComputePassPipeline :=
  { cpass := { s.cpass with log := s.cpass.log ++ [.setPipeline pl.pipeline] },
    pipeline := pl }

/-! ### `shader_load` (`src/pipeline.rs` lines 467–492) -/

/-- The `wgpu::ShaderSource` variants `shader_load` can build. -/
inductive ShaderSource where
  | glsl (shader : String) (stage : Nat)
  | wgsl (source : String)
deriving DecidableEq

/-- The error causes of `shader_load` (all raised as `anyhow` errors). -/
inductive ShaderLoadError where
  | ioError
  | utf8Error
  | noExtension
  | stringConversion
  | unknownExtension
deriving DecidableEq

/-- The `wgpu::ShaderModuleDescriptor` handed to
`device.create_shader_module`; the returned opaque module is modelled by
this descriptor. -/
structure WShaderModule where
  label : Option String
  source : ShaderSource
deriving DecidableEq

/-- `shader_load` (pipeline.rs lines 467–492).  The external calls are
modelled by their outcomes: `readResult` is the buffer after
`File::open`/`fs::metadata`/`read` (`none` when any of the three fails),
`decode` is `str::from_utf8`, and `extension` is
`Path::extension` (outer `Option`) composed with `OsStr::to_str` (inner
`Option`).  The stage is the `naga::ShaderStage` passed through to the
`Glsl` source. -/
def shader_load (readResult : Option (List Nat)) (decode : List Nat → Option String)
    (extension : Option (Option String)) (stage : Nat) (label : Option String) :
    Except ShaderLoadError WShaderModule :=
  match readResult with
  | none => .error .ioError
  | some buffer =>
    match decode buffer with
    | none => .error .utf8Error
    | some src =>
      match extension with
      | none => .error .noExtension
      | some os =>
        match os with
        | none => .error .stringConversion
        | some e =>
          if e = "glsl" then .ok { label, source := .glsl src stage }
          else if e = "wgsl" then .ok { label, source := .wgsl src }
          else .error .unknownExtension

/-! ### `ShaderModule` (`src/shader.rs`) -/

/-- The sources a `wgpu::ShaderModule` is created from in shader.rs. -/
inductive WgpuModuleSource where
  | wgsl (source : String)
  | spirv (binary : List Nat)
deriving DecidableEq

/-- `ShaderModule` (shader.rs lines 16–21): a `wgpu::ShaderModule`
(modelled by its creation descriptor), the source files and the stored
entry point. -/
structure ShaderModule where
  module : Option String × WgpuModuleSource
  src_files : List String
  entry_point : String
deriving DecidableEq

/-- Errors of `ShaderModule::from_src_glsl` (anyhow messages and forwarded
shaderc failures). -/
inductive GlslError where
  | createCompiler
  | createOptions
  | stageNotSupported
  | compileFailed
deriving DecidableEq

/-- `ShaderModule::from_src_wgls` (shader.rs lines 24–42).  The binding
`let entry_point = src.into();` stores the whole source string as the
entry point; the `entry_point` parameter is never read. -/
def ShaderModule.from_src_wgls (src : String) (entry_point : String)
    (label : Option String) : Except GlslError ShaderModule :=
  let _ := entry_point
  .ok { module := (label, .wgsl src),
        src_files := [],
        entry_point := src }

/-- The `wgpu::ShaderStages` bitflag values compared against in
`from_src_glsl`. -/
def STAGE_VERTEX : Nat := 1
def STAGE_FRAGMENT : Nat := 2
def STAGE_COMPUTE : Nat := 4

/-- `ShaderModule::from_src_glsl` (shader.rs lines 43–108).  The external
shaderc calls are modelled by their outcomes: `compilerOk` and `optionsOk`
for `Compiler::new`/`CompileOptions::new`, and `spirvResult` for
`compile_into_spirv` (`none` when compilation fails). -/
def ShaderModule.from_src_glsl (compilerOk optionsOk : Bool)
    (spirvResult : Option (List Nat)) (src : String) (stage : Nat)
    (entry_point : String) (label : Option String) : Except GlslError ShaderModule :=
  let _ := src
  if !compilerOk then .error .createCompiler
  else if !optionsOk then .error .createOptions
  else if stage = STAGE_VERTEX ∨ stage = STAGE_FRAGMENT ∨ stage = STAGE_COMPUTE then
    match spirvResult with
    | none => .error .compileFailed
    | some spirv =>
      .ok { module := (label, .spirv spirv),
            src_files := [],
            entry_point := entry_point }
  else .error .stageNotSupported

/-! ### `Texture::slice` (`src/texture.rs` lines 402–461) -/

/-- `std::ops::Bound<u32>` as produced by `RangeBounds::start_bound` /
`end_bound`. -/
inductive Bound where
  | unbounded
  | included (x : Nat)
  | excluded (x : Nat)
deriving DecidableEq

/-- `wgpu::Extent3d`. -/
structure Extent3d where
  width : Nat
  height : Nat
  depth_or_array_layers : Nat
deriving DecidableEq

/-- `wgpu::Origin3d`. -/
structure Origin3d where
  x : Nat
  y : Nat
  z : Nat
deriving DecidableEq

/-- `Texture` (texture.rs); only the `size` field is read by `slice`, the
wgpu texture/view/sampler handles are opaque. -/
structure Texture where
  texture : Nat
  size : Extent3d
deriving DecidableEq

/-- `TextureSlice` (texture.rs). -/
structure TextureSlice where
  texture : Texture
  origin : Origin3d
  extent : Extent3d
deriving DecidableEq

/-- The start-bound computation of `Texture::slice` (texture.rs lines
404–408, repeated per dimension): `0` for `Unbounded`, `x + 0` for
`Included(x)`, `x + 1` for `Excluded(x)` (`u32` arithmetic). -/
def sliceStartBound : Bound → Nat
  | .unbounded => 0
  | .included x => (x + 0) % 2 ^ 32
  | .excluded x => (x + 1) % 2 ^ 32

/-- The end-bound computation of `Texture::slice` (texture.rs lines
409–413, repeated per dimension with the texture's size in that
dimension): the size for `Unbounded`, `(x + 1).max(size)` for
`Included(x)`, `(x + 0).max(size)` for `Excluded(x)`. -/
def sliceEndBound (size : Nat) : Bound → Nat
  | .unbounded => size
  | .included x => max ((x + 1) % 2 ^ 32) size
  | .excluded x => max ((x + 0) % 2 ^ 32) size

/-- Wrapping `u32` subtraction, for `range.end - range.start` in the
extent computation (meaningful for arguments below `2 ^ 32`). -/
def u32Sub (a b : Nat) : Nat := (a + 2 ^ 32 - b) % 2 ^ 32

/-- `Texture::slice` (texture.rs lines 402–461).  Each `RangeBounds`
argument is modelled by its `(start_bound, end_bound)` pair. -/
def Texture.slice (t : Texture) (bound_x bound_y bound_z : Bound × Bound) : TextureSlice :=
  let range_x : URange := ⟨sliceStartBound bound_x.1, sliceEndBound t.size.width bound_x.2⟩
  let range_y : URange := ⟨sliceStartBound bound_y.1, sliceEndBound t.size.height bound_y.2⟩
  let range_z : URange :=
    ⟨sliceStartBound bound_z.1, sliceEndBound t.size.depth_or_array_layers bound_z.2⟩
  { texture := t,
    origin := { x := range_x.start, y := range_y.start, z := range_z.start },
    extent := { width := u32Sub range_x.stop range_x.start,
                height := u32Sub range_y.stop range_y.start,
                depth_or_array_layers := u32Sub range_z.stop range_z.start } }

/-! ### Helper lemmas about the push-constant range allocation -/

theorem createPushConstRanges_cons (off : Nat) (x : PushConstantLayout)
    (xs : List PushConstantLayout) :
    createPushConstRanges off (x :: xs) =
      ⟨x.stages, ⟨off, (off + sizeAligned x.size) % 2 ^ 32⟩⟩ ::
        createPushConstRanges ((off + sizeAligned x.size) % 2 ^ 32) xs := rfl

theorem createPushConstRanges_length (ls : List PushConstantLayout) (off : Nat) :
    (createPushConstRanges off ls).length = ls.length := by
  induction ls generalizing off with
  | nil => rfl
  | cons x xs ih =>
    rw [createPushConstRanges_cons, List.length_cons, List.length_cons, ih]

theorem createPushConstRanges_stages (ls : List PushConstantLayout) (off i : Nat) :
    ((createPushConstRanges off ls).getD i default).stages =
      (ls.getD i default).stages := by
  induction ls generalizing off i with
  | nil => rfl
  | cons x xs ih =>
    rw [createPushConstRanges_cons]
    cases i with
    | zero => rfl
    | succ n =>
      rw [List.getD_cons_succ, List.getD_cons_succ]
      exact ih _ n

theorem createPushConstRanges_first_start (ls : List PushConstantLayout) (off : Nat) :
    ls ≠ [] → ((createPushConstRanges off ls).getD 0 default).range.start = off := by
  cases ls with
  | nil => intro h; exact absurd rfl h
  | cons x xs => intro _; rw [createPushConstRanges_cons]; rfl

theorem createPushConstRanges_chain (ls : List PushConstantLayout) (off i : Nat)
    (h : i + 1 < ls.length) :
    ((createPushConstRanges off ls).getD (i + 1) default).range.start =
      ((createPushConstRanges off ls).getD i default).range.stop := by
  induction ls generalizing off i with
  | nil => simp at h
  | cons x xs ih =>
    rw [createPushConstRanges_cons]
    cases i with
    | zero =>
      cases xs with
      | nil => simp at h
      | cons y ys =>
        rw [List.getD_cons_succ, List.getD_cons_zero, createPushConstRanges_cons,
          List.getD_cons_zero]
    | succ n =>
      have h' : n + 1 < xs.length := by simpa using h
      rw [List.getD_cons_succ, List.getD_cons_succ]
      exact ih _ n h'

/-! ### Claim theorems -/

/-- Claim C1: at a single push-constant layout of declared size 5 (stages
value 1), `PipelineLayoutBuilder::create` produces the range `0..4`, whose
length 4 is smaller than the declared size and is not the align-up 8: the
formula `(((size as i32 - 4)/4 + 1)*4)` rounds down, not up, for sizes
above 4 that are not multiples of 4. -/
theorem create_size_five_range_too_short :
    (PipelineLayoutBuilder.new.push_const_layout ⟨5, 1⟩).create.push_const_ranges =
      [⟨1, ⟨0, 4⟩⟩] ∧ sizeAligned 5 = 4 ∧ ¬ 5 ≤ sizeAligned 5 ∧ sizeAligned 5 ≠ 8 := by
  decide

/-- Claim C2: the ranges produced by `PipelineLayoutBuilder::create` are
allocated contiguously in push order — one range per layout, stages copied
unchanged, the first range starting at offset 0 and each subsequent range
starting exactly where the previous one ends. -/
theorem pipeline_layout_create_contiguous (b : PipelineLayoutBuilder) (i : Nat)
    (h : i + 1 < b.push_const_layouts.length) :
    b.create.push_const_ranges.length = b.push_const_layouts.length ∧
    (∀ j, (b.create.push_const_ranges.getD j default).stages =
      (b.push_const_layouts.getD j default).stages) ∧
    (b.create.push_const_ranges.getD 0 default).range.start = 0 ∧
    (b.create.push_const_ranges.getD (i + 1) default).range.start =
      (b.create.push_const_ranges.getD i default).range.stop := by
  refine ⟨createPushConstRanges_length _ _,
    fun j => createPushConstRanges_stages _ _ j, ?_, ?_⟩
  · cases hl : b.push_const_layouts with
    | nil =>
      have he : b.create.push_const_ranges = [] := by
        simp [PipelineLayoutBuilder.create, hl, createPushConstRanges]
      rw [he]; rfl
    | cons x xs =>
      exact createPushConstRanges_first_start _ 0 (by simp [hl]) |>.trans rfl
  · exact createPushConstRanges_chain _ 0 i h

/-- A concrete builder with two push-constant layouts, used to witness the
claim theorems. -/
def demoLayoutBuilder : PipelineLayoutBuilder :=
  (PipelineLayoutBuilder.new.push_const_layout ⟨4, 1⟩).push_const_layout ⟨6, 2⟩

/-- Claim C2 witness at `demoLayoutBuilder` and index 0. -/
theorem pipeline_layout_create_contiguous_witness :
    demoLayoutBuilder.create.push_const_ranges.length =
      demoLayoutBuilder.push_const_layouts.length ∧
    (∀ j, (demoLayoutBuilder.create.push_const_ranges.getD j default).stages =
      (demoLayoutBuilder.push_const_layouts.getD j default).stages) ∧
    (demoLayoutBuilder.create.push_const_ranges.getD 0 default).range.start = 0 ∧
    (demoLayoutBuilder.create.push_const_ranges.getD 1 default).range.start =
      (demoLayoutBuilder.create.push_const_ranges.getD 0 default).range.stop :=
  pipeline_layout_create_contiguous demoLayoutBuilder 0 (by decide)

/-- Claim C3: `set_push_const(i, c)` on a render-pass pipeline forwards the
bytes of `c` to the underlying pass at the byte offset
`push_const_ranges[i].range.start` with stages `push_const_ranges[i].stages`,
and on a compute-pass pipeline at offset `push_const_ranges[i].range.start`;
neither call modifies the pipeline's `push_const_ranges`. -/
theorem set_push_const_forwards (rp : RenderPassPipeline) (cp : ComputePassPipeline)
    (i j : Nat) (c d : List Nat)
    (hi : i < rp.pipeline.push_const_ranges.length)
    (hj : j < cp.pipeline.push_const_ranges.length) :
    rp.set_push_const i c =
      some { rp with render_pass :=
        { rp.render_pass with
          log := rp.render_pass.log ++
            [.setPushConstants (rp.pipeline.push_const_ranges.getD i default).stages
              (rp.pipeline.push_const_ranges.getD i default).range.start c] } } ∧
    Option.map (fun s => s.pipeline.push_const_ranges) (rp.set_push_const i c) =
      some rp.pipeline.push_const_ranges ∧
    cp.set_push_const j d =
      some { cp with cpass :=
        { cp.cpass with
          log := cp.cpass.log ++
            [.setPushConstants (cp.pipeline.push_const_ranges.getD j default).range.start d] } } ∧
    Option.map (fun s => s.pipeline.push_const_ranges) (cp.set_push_const j d) =
      some cp.pipeline.push_const_ranges := by
  refine ⟨?_, ?_, ?_, ?_⟩ <;>
    simp [RenderPassPipeline.set_push_const, ComputePassPipeline.set_push_const, hi, hj]

/-- A minimal render-pipeline descriptor for witnesses. -/
def demoRPD : RenderPipelineDescriptor :=
  { label := none,
    vertex := ⟨0, "main", []⟩,
    fragment := some ⟨0, "main", []⟩,
    primitive := ⟨0, none, 0, none, 0, false, false⟩,
    depth_stencil := none,
    multisample := ⟨1, 2 ^ 64 - 1, false⟩,
    multiview := none }

/-- A render pipeline with one push-constant range, for witnesses. -/
def demoRenderPipeline : RenderPipeline :=
  { pipeline := demoRPD, push_const_ranges := [⟨1, ⟨0, 4⟩⟩] }

/-- A render-pass pipeline state for witnesses. -/
def demoRPP : RenderPassPipeline :=
  RenderPass.set_pipeline ⟨⟨none, [], none⟩, []⟩ demoRenderPipeline

/-- A compute pipeline with one push-constant range, for witnesses. -/
def demoComputePipeline : ComputePipeline :=
  { pipeline := ⟨none, 0, "main"⟩, push_const_ranges := [⟨4, ⟨0, 8⟩⟩] }

/-- A compute-pass pipeline state for witnesses. -/
def demoCPP : ComputePassPipeline :=
  ComputePass.set_pipeline (ComputePass.new none) demoComputePipeline

/-- Claim C3 witness at concrete pass states and index 0. -/
theorem set_push_const_forwards_witness :
    demoRPP.set_push_const 0 [1, 2, 3, 4] =
      some { demoRPP with render_pass :=
        { demoRPP.render_pass with
          log := demoRPP.render_pass.log ++
            [.setPushConstants (demoRPP.pipeline.push_const_ranges.getD 0 default).stages
              (demoRPP.pipeline.push_const_ranges.getD 0 default).range.start [1, 2, 3, 4]] } } ∧
    Option.map (fun s => s.pipeline.push_const_ranges) (demoRPP.set_push_const 0 [1, 2, 3, 4]) =
      some demoRPP.pipeline.push_const_ranges ∧
    demoCPP.set_push_const 0 [5, 6, 7, 8] =
      some { demoCPP with cpass :=
        { demoCPP.cpass with
          log := demoCPP.cpass.log ++
            [.setPushConstants (demoCPP.pipeline.push_const_ranges.getD 0 default).range.start
              [5, 6, 7, 8]] } } ∧
    Option.map (fun s => s.pipeline.push_const_ranges) (demoCPP.set_push_const 0 [5, 6, 7, 8]) =
      some demoCPP.pipeline.push_const_ranges :=
  set_push_const_forwards demoRPP demoCPP 0 0 [1, 2, 3, 4] [5, 6, 7, 8]
    (by simp [demoRPP, RenderPass.set_pipeline, demoRenderPipeline])
    (by simp [demoCPP, ComputePass.set_pipeline, demoComputePipeline])

/-- Claim C4: `RenderPipelineBuilder::build` and
`ComputePipelineBuilder::build` panic (modelled `none`) exactly when no
layout was provided, and after `set_layout` the panic branch is
unreachable and a pipeline is returned. -/
theorem build_panics_iff_no_layout (cb : ComputePipelineBuilder)
    (rb : RenderPipelineBuilder) (l l' : PipelineLayout) :
    (cb.build = none ↔ cb.layout = none) ∧
    (rb.build = none ↔ rb.layout = none) ∧
    (cb.set_layout l).build.isSome = true ∧
    (rb.set_layout l').build.isSome = true := by
  refine ⟨?_, ?_, ?_, ?_⟩
  · cases h : cb.layout <;> simp [ComputePipelineBuilder.build, h]
  · cases h : rb.layout <;> simp [RenderPipelineBuilder.build, h]
  · simp [ComputePipelineBuilder.set_layout, ComputePipelineBuilder.build]
  · simp [RenderPipelineBuilder.set_layout, RenderPipelineBuilder.build]

/-- Claim C5: the pipeline built from a layout `l` (render or compute)
carries `l`'s push-constant ranges unchanged, element for element. -/
theorem build_copies_push_const_ranges (cb : ComputePipelineBuilder)
    (rb : RenderPipelineBuilder) (l : PipelineLayout) :
    Option.map (fun p => p.push_const_ranges) (cb.set_layout l).build =
      some l.push_const_ranges ∧
    Option.map (fun p => p.push_const_ranges) (rb.set_layout l).build =
      some l.push_const_ranges := by
  constructor
  · simp [ComputePipelineBuilder.set_layout, ComputePipelineBuilder.build]
  · simp [RenderPipelineBuilder.set_layout, RenderPipelineBuilder.build]

/-- Claim C6: `shader_load` succeeds exactly when the file was read, its
contents decoded as UTF-8, and the path's extension existed, converted to
a string and was `"glsl"` or `"wgsl"`; every other case is an error, and
on success the module is created from the decoded source — `Glsl` with the
given stage for `"glsl"`, `Wgsl` for `"wgsl"` — with no other failure or
recovery logic. -/
theorem shader_load_classification (rr : Option (List Nat))
    (dec : List Nat → Option String) (ext : Option (Option String))
    (stage : Nat) (label : Option String) (bytes : List Nat) (src : String) :
    ((∃ m, shader_load rr dec ext stage label = .ok m) ↔
      ∃ b s e, rr = some b ∧ dec b = some s ∧ ext = some (some e) ∧
        (e = "glsl" ∨ e = "wgsl")) ∧
    shader_load (some bytes) (fun _ => some src) (some (some "glsl")) stage label =
      .ok { label, source := .glsl src stage } ∧
    shader_load (some bytes) (fun _ => some src) (some (some "wgsl")) stage label =
      .ok { label, source := .wgsl src } := by
  refine ⟨?_, by simp [shader_load], by simp [shader_load]⟩
  cases rr with
  | none => simp [shader_load]
  | some buffer =>
    cases hdec : dec buffer with
    | none => simp [shader_load, hdec]
    | some s0 =>
      cases ext with
      | none => simp [shader_load, hdec]
      | some os =>
        cases os with
        | none => simp [shader_load, hdec]
        | some e =>
          by_cases hg : e = "glsl"
          · subst hg; simp [shader_load, hdec]
          · by_cases hw : e = "wgsl"
            · subst hw; simp [shader_load, hdec]
            · simp [shader_load, hdec, hg, hw]

/-- Claim C7: `RenderPassBuilder::begin` starts a render pass whose
color-attachment list is exactly the pushed attachments in push order,
whose depth-stencil attachment is `None` and whose label is the one passed
to `begin`. -/
theorem render_pass_begin_descriptor (atts : List Nat) (label : Option String) :
    ((atts.foldl RenderPassBuilder.push_color_attachment RenderPassBuilder.new).begin
        label).descriptor =
      { label, color_attachments := atts, depth_stencil_attachment := none } := by
  have hfold : ∀ (l : List Nat) (b : RenderPassBuilder),
      (l.foldl RenderPassBuilder.push_color_attachment b).color_attachments =
        b.color_attachments ++ l := by
    intro l
    induction l with
    | nil => intro b; simp
    | cons a rest ih =>
      intro b
      rw [List.foldl_cons, ih]
      simp [RenderPassBuilder.push_color_attachment]
  simp [RenderPassBuilder.begin, hfold, RenderPassBuilder.new]

/-- Iterated `push_vertex_buffer`, for stating the consecutive-slot
consequence of the counter invariant. -/
def pushMany (s : RenderPassPipeline) (bufs : List Nat) : RenderPassPipeline :=
  bufs.foldl RenderPassPipeline.push_vertex_buffer s

theorem pushMany_nil (s : RenderPassPipeline) : pushMany s [] = s := rfl

theorem pushMany_cons (s : RenderPassPipeline) (b : Nat) (bufs : List Nat) :
    pushMany s (b :: bufs) = pushMany (s.push_vertex_buffer b) bufs := rfl

/-- Iterated `push_vertex_buffer` binds the consecutive slots starting at
the current counter value (as long as the counter does not wrap). -/
theorem pushMany_log (bufs : List Nat) (s : RenderPassPipeline)
    (h : s.vert_buffer_index + bufs.length ≤ 2 ^ 32) :
    (pushMany s bufs).render_pass.log =
      s.render_pass.log ++
        List.zipWith (fun slot buf => RenderPassCmd.setVertexBuffer slot buf)
          (List.range' s.vert_buffer_index bufs.length) bufs := by
  induction bufs generalizing s with
  | nil => simp [pushMany_nil]
  | cons b rest ih =>
    have hlt : s.vert_buffer_index < 2 ^ 32 := by
      simp only [List.length_cons] at h; omega
    have hs' : (s.push_vertex_buffer b).vert_buffer_index + rest.length ≤ 2 ^ 32 := by
      have hmle := Nat.mod_le (s.vert_buffer_index + 1) (2 ^ 32)
      simp only [RenderPassPipeline.push_vertex_buffer, List.length_cons] at h ⊢
      omega
    rw [pushMany_cons, ih _ hs', List.length_cons, List.range'_succ]
    cases rest with
    | nil =>
      simp [RenderPassPipeline.push_vertex_buffer]
    | cons r2 rest2 =>
      have hm : (s.vert_buffer_index + 1) % 4294967296 = s.vert_buffer_index + 1 := by
        simp only [List.length_cons] at h; omega
      simp [RenderPassPipeline.push_vertex_buffer, hm]

/-- Claim C8: the vertex-buffer slot counter invariant — the counter is 0
right after either `set_pipeline`, `set_vertex_buffer(i, _)` binds slot `i`
and sets the counter to `i + 1`, `push_vertex_buffer` binds the slot equal
to the counter and increments it, so consecutive `push_vertex_buffer`
calls bind consecutive slots starting at 0 after a pipeline switch or at
`i + 1` after `set_vertex_buffer(i, _)` (all counter arithmetic in `u32`;
the stated hypotheses rule out wrap-around). -/
theorem vert_buffer_counter_invariant (p : RenderPass) (pl : RenderPipeline)
    (s : RenderPassPipeline) (i buf : Nat) (bufs : List Nat)
    (hi : i + 1 < 2 ^ 32) (hc : s.vert_buffer_index + 1 < 2 ^ 32)
    (hlen : bufs.length ≤ 2 ^ 32) (hilen : i + 1 + bufs.length ≤ 2 ^ 32) :
    (p.set_pipeline pl).vert_buffer_index = 0 ∧
    (s.set_pipeline pl).vert_buffer_index = 0 ∧
    (s.set_vertex_buffer i buf).render_pass.log =
      s.render_pass.log ++ [.setVertexBuffer i buf] ∧
    (s.set_vertex_buffer i buf).vert_buffer_index = i + 1 ∧
    (s.push_vertex_buffer buf).render_pass.log =
      s.render_pass.log ++ [.setVertexBuffer s.vert_buffer_index buf] ∧
    (s.push_vertex_buffer buf).vert_buffer_index = s.vert_buffer_index + 1 ∧
    (pushMany (p.set_pipeline pl) bufs).render_pass.log =
      (p.set_pipeline pl).render_pass.log ++
        List.zipWith (fun slot b => RenderPassCmd.setVertexBuffer slot b)
          (List.range bufs.length) bufs ∧
    (pushMany (s.set_vertex_buffer i buf) bufs).render_pass.log =
      (s.set_vertex_buffer i buf).render_pass.log ++
        List.zipWith (fun slot b => RenderPassCmd.setVertexBuffer slot b)
          (List.range' (i + 1) bufs.length) bufs := by
  have hmi : (s.set_vertex_buffer i buf).vert_buffer_index = i + 1 := by
    simp only [RenderPassPipeline.set_vertex_buffer]
    omega
  refine ⟨rfl, rfl, rfl, hmi, rfl, ?_, ?_, ?_⟩
  · simp only [RenderPassPipeline.push_vertex_buffer]
    omega
  · rw [pushMany_log bufs (p.set_pipeline pl) (by simpa [RenderPass.set_pipeline] using hlen),
      List.range_eq_range']
    rfl
  · rw [pushMany_log bufs (s.set_vertex_buffer i buf) (by rw [hmi]; omega), hmi]

/-- Claim C8 witness at a concrete pass state. -/
theorem vert_buffer_counter_invariant_witness :
    (RenderPass.set_pipeline demoRPP.render_pass demoRenderPipeline).vert_buffer_index = 0 ∧
    (demoRPP.set_pipeline demoRenderPipeline).vert_buffer_index = 0 ∧
    (demoRPP.set_vertex_buffer 3 7).render_pass.log =
      demoRPP.render_pass.log ++ [.setVertexBuffer 3 7] ∧
    (demoRPP.set_vertex_buffer 3 7).vert_buffer_index = 3 + 1 ∧
    (demoRPP.push_vertex_buffer 7).render_pass.log =
      demoRPP.render_pass.log ++ [.setVertexBuffer demoRPP.vert_buffer_index 7] ∧
    (demoRPP.push_vertex_buffer 7).vert_buffer_index = demoRPP.vert_buffer_index + 1 ∧
    (pushMany (RenderPass.set_pipeline demoRPP.render_pass demoRenderPipeline)
        [8, 9]).render_pass.log =
      (RenderPass.set_pipeline demoRPP.render_pass demoRenderPipeline).render_pass.log ++
        List.zipWith (fun slot b => RenderPassCmd.setVertexBuffer slot b)
          (List.range [8, 9].length) [8, 9] ∧
    (pushMany (demoRPP.set_vertex_buffer 3 7) [8, 9]).render_pass.log =
      (demoRPP.set_vertex_buffer 3 7).render_pass.log ++
        List.zipWith (fun slot b => RenderPassCmd.setVertexBuffer slot b)
          (List.range' (3 + 1) [8, 9].length) [8, 9] := by
  have h := vert_buffer_counter_invariant demoRPP.render_pass demoRenderPipeline demoRPP 3 7
    [8, 9] (by decide) (by decide) (by decide) (by decide)
  exact ⟨h.1, h.2.1, h.2.2.1, h.2.2.2.1, h.2.2.2.2.1, h.2.2.2.2.2.1,
    h.2.2.2.2.2.2.1, h.2.2.2.2.2.2.2⟩

/-- Claim C9: `ShaderModule::from_src_wgls` always succeeds and stores the
whole source string as the `entry_point` field — the `entry_point`
argument is ignored, so the result is independent of it and `entry_point()`
returns the source, not the name passed in — while `from_src_glsl` stores
the `entry_point` argument whenever it succeeds. -/
theorem from_src_wgls_stores_src_as_entry_point (src ep ep2 : String)
    (label : Option String) (compilerOk optionsOk : Bool)
    (spirv : Option (List Nat)) (gsrc gep : String) (gstage : Nat)
    (glabel : Option String) :
    ShaderModule.from_src_wgls src ep label =
      .ok { module := (label, .wgsl src), src_files := [], entry_point := src } ∧
    ShaderModule.from_src_wgls src ep label = ShaderModule.from_src_wgls src ep2 label ∧
    Except.map (fun m => m.entry_point) (ShaderModule.from_src_wgls src ep label) =
      .ok src ∧
    Except.map (fun m => m.entry_point)
        (ShaderModule.from_src_glsl compilerOk optionsOk spirv gsrc gstage gep glabel) =
      Except.map (fun _ => gep)
        (ShaderModule.from_src_glsl compilerOk optionsOk spirv gsrc gstage gep glabel) := by
  refine ⟨rfl, rfl, rfl, ?_⟩
  by_cases hst : gstage = STAGE_VERTEX ∨ gstage = STAGE_FRAGMENT ∨ gstage = STAGE_COMPUTE <;>
    cases compilerOk <;> cases optionsOk <;> cases spirv <;>
      simp [ShaderModule.from_src_glsl, hst, Except.map]

/-- Claim C10: `Texture::slice` takes the origin per dimension from the
start bound (0 for unbounded, `x` for `Included(x)`, `x + 1` for
`Excluded(x)`) and the end coordinate from the end bound (the texture's
size in that dimension for unbounded, `max (x + 1) size` for
`Included(x)`, `max x size` for `Excluded(x)`); an all-unbounded slice has
origin `(0,0,0)` and extent equal to the full texture size, and an
explicit end bound never yields an end coordinate below the size. -/
theorem texture_slice_bounds (t : Texture) (bound_x bound_y bound_z : Bound × Bound)
    (x s : Nat) (hx : x + 1 < 2 ^ 32)
    (hw : t.size.width < 2 ^ 32) (hh : t.size.height < 2 ^ 32)
    (hd : t.size.depth_or_array_layers < 2 ^ 32) :
    (t.slice bound_x bound_y bound_z).origin =
      ⟨sliceStartBound bound_x.1, sliceStartBound bound_y.1, sliceStartBound bound_z.1⟩ ∧
    sliceStartBound Bound.unbounded = 0 ∧
    sliceStartBound (Bound.included x) = x ∧
    sliceStartBound (Bound.excluded x) = x + 1 ∧
    sliceEndBound s Bound.unbounded = s ∧
    sliceEndBound s (Bound.included x) = max (x + 1) s ∧
    sliceEndBound s (Bound.excluded x) = max x s ∧
    s ≤ sliceEndBound s (Bound.included x) ∧
    s ≤ sliceEndBound s (Bound.excluded x) ∧
    t.slice (Bound.unbounded, Bound.unbounded) (Bound.unbounded, Bound.unbounded)
        (Bound.unbounded, Bound.unbounded) =
      { texture := t, origin := ⟨0, 0, 0⟩, extent := t.size } := by
  have hmx : x % 2 ^ 32 = x := by omega
  have hmx1 : (x + 1) % 2 ^ 32 = x + 1 := by omega
  refine ⟨rfl, rfl, ?_, ?_, rfl, ?_, ?_, ?_, ?_, ?_⟩
  · show (x + 0) % 2 ^ 32 = x
    omega
  · show (x + 1) % 2 ^ 32 = x + 1
    omega
  · show max ((x + 1) % 2 ^ 32) s = max (x + 1) s
    rw [hmx1]
  · show max ((x + 0) % 2 ^ 32) s = max x s
    rw [Nat.add_zero, hmx]
  · exact Nat.le_max_right _ _
  · exact Nat.le_max_right _ _
  · have e1 : u32Sub t.size.width 0 = t.size.width := by
      simp [u32Sub]; omega
    have e2 : u32Sub t.size.height 0 = t.size.height := by
      simp [u32Sub]; omega
    have e3 : u32Sub t.size.depth_or_array_layers 0 = t.size.depth_or_array_layers := by
      simp [u32Sub]; omega
    simp [Texture.slice, sliceStartBound, sliceEndBound, e1, e2, e3]

/-- Claim C10 witness at a concrete texture and bound values. -/
theorem texture_slice_bounds_witness :
    ((Texture.mk 0 ⟨7, 5, 3⟩).slice (Bound.included 1, Bound.excluded 4)
        (Bound.unbounded, Bound.unbounded) (Bound.unbounded, Bound.unbounded)).origin =
      ⟨sliceStartBound (Bound.included 1), sliceStartBound Bound.unbounded,
        sliceStartBound Bound.unbounded⟩ ∧
    sliceStartBound Bound.unbounded = 0 ∧
    sliceStartBound (Bound.included 2) = 2 ∧
    sliceStartBound (Bound.excluded 2) = 2 + 1 ∧
    sliceEndBound 6 Bound.unbounded = 6 ∧
    sliceEndBound 6 (Bound.included 2) = max (2 + 1) 6 ∧
    sliceEndBound 6 (Bound.excluded 2) = max 2 6 ∧
    6 ≤ sliceEndBound 6 (Bound.included 2) ∧
    6 ≤ sliceEndBound 6 (Bound.excluded 2) ∧
    (Texture.mk 0 ⟨7, 5, 3⟩).slice (Bound.unbounded, Bound.unbounded)
        (Bound.unbounded, Bound.unbounded) (Bound.unbounded, Bound.unbounded) =
      { texture := Texture.mk 0 ⟨7, 5, 3⟩, origin := ⟨0, 0, 0⟩, extent := ⟨7, 5, 3⟩ } :=
  texture_slice_bounds (Texture.mk 0 ⟨7, 5, 3⟩) (Bound.included 1, Bound.excluded 4)
    (Bound.unbounded, Bound.unbounded) (Bound.unbounded, Bound.unbounded) 2 6
    (by decide) (by decide) (by decide) (by decide)

end WgpuUtils
